import Mathlib

/-!
Shallow embedding of the scoring-orchestration layer of the DTU sentiment
demo frontend (`frontend/app.py`): the score-to-label classifier
(`score_to_label`), the in-memory metrics recorder (`Metrics`), the external
call wrapper (`call_external_service`) and the sequential batch evaluator
(`api_batch`).

Modelling conventions:
- Python floats are modelled as rationals (`ℚ`).  Every comparison the code
  performs (`score <= -1`, `score >= 1`, `-5 <= score <= 5`,
  `status_code != 200`) is exact on floats, so the order structure of `ℚ`
  is faithful.
- The external HTTP interaction performed by `httpx` is modelled by an
  explicit `HttpResult` value describing what the transport produced
  (a response with a status, text body and parsed JSON, a timeout, a
  network error, or any other exception), and the measured wall-clock
  latency is an explicit parameter.  `call_external_service` is then a pure
  function of those inputs together with the current `Metrics` state.
- Python dicts of JSON objects are association lists; `dict` lookup is
  `List.lookup` (first match).
- `sorted` on a list of rationals is modelled with `List.insertionSort
  (· ≤ ·)`: on a linearly ordered type every sorting algorithm produces the
  same (unique) sorted permutation, so this agrees with Python `sorted`.
-/

/-- The three sentiment labels (`SentimentLabel = Literal["positive",
"neutral", "negative"]` in `app.py`). -/
inductive SentimentLabel where
  | positive
  | neutral
  | negative
  deriving DecidableEq, Repr

/-- The string a `SentimentLabel` denotes (in Python the label *is* that
string; batch rows compare it with the gold label by string equality). -/
def labelStr : SentimentLabel → String
  | .positive => "positive"
  | .neutral => "neutral"
  | .negative => "negative"

/-- `score_to_label` from `app.py`: `negative` if `score <= -1`, `positive`
if `score >= 1`, else `neutral`. -/
def score_to_label (score : ℚ) : SentimentLabel :=
  if score ≤ -1 then .negative
  else if 1 ≤ score then .positive
  else .neutral

/-- The `Metrics` dataclass of `app.py`: in-memory operational counters. -/
structure Metrics where
  total_requests : ℕ := 0
  success_requests : ℕ := 0
  failed_requests : ℕ := 0
  latencies_ms : List ℚ := []
  last_latency_ms : Option ℚ := none
  deriving DecidableEq, Repr

/-- The process-start state: all counters zero, no latencies. -/
def Metrics.init : Metrics := {}

/-- `Metrics.record` from `app.py`: bump `total_requests`, bump the
success or failure counter according to `ok`, remember the last latency and
append it to the log. -/
def Metrics.record (m : Metrics) (ok : Bool) (latency_ms : ℚ) : Metrics :=
  { total_requests := m.total_requests + 1
    success_requests := if ok then m.success_requests + 1 else m.success_requests
    failed_requests := if ok then m.failed_requests else m.failed_requests + 1
    latencies_ms := m.latencies_ms ++ [latency_ms]
    last_latency_ms := some latency_ms }

/-- The dictionary returned by `Metrics.snapshot` in `app.py`. -/
structure MetricsSnapshot where
  total_requests : ℕ
  success_requests : ℕ
  failed_requests : ℕ
  last_latency_ms : Option ℚ
  avg_latency_ms : Option ℚ
  p95_latency_ms : Option ℚ
  deriving DecidableEq, Repr

/-- `Metrics.snapshot` from `app.py`.  The p95 index in the source is
`int(0.95 * (len(xs) - 1))`: for every list length `n` within any
realistic range the double product `0.95 * (n - 1)` truncates to the same
integer as the exact rational `19 * (n - 1) / 20` (the fractional part of
the exact value is either `0` or at least `1/20`, far beyond the relative
rounding error of one double multiplication), so the index is modelled as
`19 * (n - 1) / 20` in natural-number division. -/
def Metrics.snapshot (m : Metrics) : MetricsSnapshot :=
  let avg : Option ℚ :=
    if m.latencies_ms.isEmpty then none
    else some (m.latencies_ms.sum / (m.latencies_ms.length : ℚ))
  let p95 : Option ℚ :=
    if 20 ≤ m.latencies_ms.length then
      let xs := m.latencies_ms.insertionSort (· ≤ ·)
      some (xs.getD ((19 * (xs.length - 1)) / 20) 0)
    else none
  ⟨m.total_requests, m.success_requests, m.failed_requests,
    m.last_latency_ms, avg, p95⟩

/-- A single apostrophe character, used to build Python `repr` strings. -/
def pySquote : String := (Char.ofNat 39).toString

/-- Python `repr` of a simple string (no embedded quotes or escapes): the
string wrapped in single quotes.  All strings appearing in this
development are of that simple shape. -/
def pyRepr (s : String) : String := pySquote ++ s ++ pySquote

/-- JSON values as far as this app inspects them: numbers, strings, null,
booleans, and opaque composite values. -/
inductive JsonVal where
  | num (q : ℚ)
  | str (s : String)
  | jnull
  | jbool (b : Bool)
  | jarr
  | jobj
  deriving DecidableEq, Repr

/-- Digits-to-number accumulator used by the decimal parser. -/
def digitsToNat (cs : List Char) : ℕ :=
  cs.foldl (fun acc c => 10 * acc + (c.toNat - 48)) 0

/-- The ASCII whitespace characters Python strips around a `float(str)`
argument (space, tab, newline, vertical tab, form feed, carriage
return). -/
def pyWsChar (c : Char) : Bool :=
  c == ' ' || c == Char.ofNat 9 || c == Char.ofNat 10 ||
    c == Char.ofNat 11 || c == Char.ofNat 12 || c == Char.ofNat 13

/-- A PEP 515 digit group: decimal digits in which every underscore is
surrounded by a digit on both sides (so the group is non-empty, starts
and ends with a digit, contains only digits and underscores, and never
two adjacent underscores).  Returns the digits with the underscores
removed, or `none` if the group is empty or malformed. -/
def underscoredDigits (cs : List Char) : Option (List Char) :=
  let ok :=
    !cs.isEmpty &&
    cs.all (fun c => c.isDigit || c == '_') &&
    (cs.headD '0').isDigit &&
    (cs.getLastD '0').isDigit &&
    (cs.zip cs.tail).all (fun p => p.1.isDigit || p.2.isDigit)
  if ok then some (cs.filter (fun c => c.isDigit)) else none

/-- Split off the maximal run of digit-or-underscore characters. -/
def digitRun (cs : List Char) : List Char × List Char :=
  (cs.takeWhile (fun c => c.isDigit || c == '_'),
   cs.dropWhile (fun c => c.isDigit || c == '_'))

/-- Parse the mantissa of a float literal, `digits [. digits]` with
PEP 515 underscores, either digit part possibly empty but not both.
Returns (integer digits, fraction digits, unconsumed rest). -/
def parseMantissa (cs : List Char) : Option (List Char × List Char × List Char) :=
  let ip := digitRun cs
  let intDsOpt : Option (List Char) :=
    if ip.1.isEmpty then some [] else underscoredDigits ip.1
  match intDsOpt with
  | none => none
  | some intDs =>
    match ip.2 with
    | [] => if intDs.isEmpty then none else some (intDs, [], [])
    | c :: rest =>
      if c == '.' then
        let fp := digitRun rest
        let fracDsOpt : Option (List Char) :=
          if fp.1.isEmpty then some [] else underscoredDigits fp.1
        match fracDsOpt with
        | none => none
        | some fracDs =>
          if intDs.isEmpty && fracDs.isEmpty then none
          else some (intDs, fracDs, fp.2)
      else
        if intDs.isEmpty then none else some (intDs, [], ip.2)

/-- Parse the optional exponent part of a float literal, `[eE][+-]?digits`
with PEP 515 underscores; the input must be consumed entirely.  Returns
the signed exponent (0 when absent). -/
def parseExponent : List Char → Option ℤ
  | [] => some 0
  | c :: rest =>
    if c == 'e' || c == 'E' then
      let signAndRest : ℤ × List Char :=
        match rest with
        | c2 :: rest2 =>
          if c2 == '-' then (-1, rest2)
          else if c2 == '+' then (1, rest2)
          else (1, rest)
        | [] => (1, [])
      let er := digitRun signAndRest.2
      if er.2.isEmpty then
        match underscoredDigits er.1 with
        | some ds => some (signAndRest.1 * (digitsToNat ds : ℤ))
        | none => none
      else none
    else none

/-- The exact rational value of a finite float literal
`sign intDs . fracDs e exp`. -/
def finiteVal (sign : ℚ) (intDs fracDs : List Char) (e : ℤ) : ℚ :=
  sign * ((digitsToNat intDs : ℚ) +
    (digitsToNat fracDs : ℚ) / ((10 : ℚ) ^ fracDs.length)) * (10 : ℚ) ^ e

/-- Case-insensitive match of the special float literals `inf`,
`infinity` and `nan` (after the sign has been removed). -/
def pySpecialLit (cs : List Char) : Bool :=
  let l := String.mk (cs.map Char.toLower)
  l == ("inf") || l == ("infinity") || l == ("nan")

/-- Outcome of Python `float(str)` when it does not raise: a finite
value, exact as a rational, or one of the non-finite specials
(`inf`/`infinity`/`nan`, any sign), which have no rational value. -/
inductive PyStrFloat where
  | finite (q : ℚ)
  | nonfinite
  deriving DecidableEq, Repr

/-- Python `float(str)` on ASCII strings, full grammar: strip ASCII
whitespace, optional sign, then either a special literal
(`inf`/`infinity`/`nan`, case-insensitive) or a finite literal
(digits with PEP 515 underscores, optional fraction, optional
exponent, at least one mantissa digit).  `none` exactly when `float()`
raises `ValueError` on an ASCII string.  (Non-ASCII arguments, where
CPython first maps Unicode digits and spaces to ASCII, are outside
this model; theorems below restrict to ASCII strings.) -/
def pyStrToFloat (s : String) : Option PyStrFloat :=
  let cs := ((s.data.dropWhile pyWsChar).reverse.dropWhile pyWsChar).reverse
  let signAndRest : ℚ × List Char :=
    match cs with
    | c :: t => if c == '-' then (-1, t) else if c == '+' then (1, t) else (1, cs)
    | [] => (1, [])
  if pySpecialLit signAndRest.2 then some .nonfinite
  else
    match parseMantissa signAndRest.2 with
    | none => none
    | some (intDs, fracDs, rest) =>
      match parseExponent rest with
      | none => none
      | some e => some (.finite (finiteVal signAndRest.1 intDs fracDs e))

/-- Python `float(x)` on a JSON value: numbers (and booleans) convert,
strings convert per `pyStrToFloat`, `None` and composites raise
`TypeError`.  Error values carry the exception type name and message as
Python produces them.  A string denoting a non-finite float (`inf`,
`nan`) converts in Python to an IEEE value with no rational counterpart;
it is outside this embedding and mapped to a tagged error that no
theorem below quantifies over (every theorem touching string conversion
restricts to ASCII strings with `pyStrToFloat` either a finite value or
`none`). -/
def pyFloat : JsonVal → Except (String × String) ℚ
  | .num q => .ok q
  | .jbool b => .ok (if b then 1 else 0)
  | .str s =>
    match pyStrToFloat s with
    | some (.finite q) => .ok q
    | some .nonfinite =>
      .error (("ModelBoundary"), ("non-finite float literal outside the rational embedding: ") ++ pyRepr s)
    | none => .error (("ValueError"), ("could not convert string to float: ") ++ pyRepr s)
  | .jnull => .error (("TypeError"), ("float() argument must be a string or a real number, not ") ++ pyRepr ("NoneType"))
  | .jarr => .error (("TypeError"), ("float() argument must be a string or a real number, not ") ++ pyRepr ("list"))
  | .jobj => .error (("TypeError"), ("float() argument must be a string or a real number, not ") ++ pyRepr ("dict"))

/-- What the transport layer produced for one call attempt: a response
(status, text body, and the result of `r.json()`, which may itself raise),
a timeout (`httpx.TimeoutException`), a network error
(`httpx.RequestError`, with exception type name and text), or any other
exception. -/
inductive HttpResult where
  | response (status : ℕ) (body : String)
      (json : Except (String × String) (List (String × JsonVal)))
  | timeoutExc
  | requestErrorExc (ename etext : String)
  | otherExc (ename etext : String)
  deriving Repr

/-- The `debug_info` dictionary returned by `call_external_service`. -/
structure DebugInfo where
  latency_ms : ℚ
  error : Option String := none
  warning : Option String := none
  endpoint : String
  deriving DecidableEq, Repr

/-- Python `str.rstrip("/")`: drop trailing slash characters. -/
def rstripSlashes (s : String) : String :=
  ⟨(s.data.reverse.dropWhile (fun c => c == '/')).reverse⟩

/-- The generic-exception error message of the final `except Exception`
branch in `call_external_service`. -/
def unexpectedErrMsg (ename etext : String) : String :=
  ("Unexpected error while calling/parsing the external service response. Details: ")
    ++ ename ++ (": ") ++ etext

/-- `call_external_service` from `app.py`, as a pure function of the
request inputs, the transport outcome, the measured latency, and the
current metrics state.  Returns `((score, debug_info), new_metrics)`. -/
def call_external_service (service_url text : String) (res : HttpResult)
    (latency_ms : ℚ) (m : Metrics) : (Option ℚ × DebugInfo) × Metrics :=
  let endpoint := rstripSlashes service_url ++ ("/v1/sentiment")
  let _ := text
  match res with
  | .response status body jsonR =>
    if status ≠ 200 then
      ((none, ⟨latency_ms,
        some (("External service responded with HTTP ") ++ toString status ++
          (". Expected 200. Response body (truncated): ") ++ pyRepr (body.take 200)),
        none, endpoint⟩), m.record false latency_ms)
    else
      match jsonR with
      | .error (ename, etext) =>
        ((none, ⟨latency_ms, some (unexpectedErrMsg ename etext), none, endpoint⟩),
          m.record false latency_ms)
      | .ok data =>
        match data.lookup ("score") with
        | none =>
          ((none, ⟨latency_ms,
            some (("External service returned JSON without the required field ") ++
              pyRepr ("score") ++ (". Got keys: ") ++ ("[") ++
              String.intercalate (", ") ((data.map (fun kv => kv.1)).map pyRepr) ++ ("]")),
            none, endpoint⟩), m.record false latency_ms)
        | some v =>
          match pyFloat v with
          | .error (ename, etext) =>
            ((none, ⟨latency_ms, some (unexpectedErrMsg ename etext), none, endpoint⟩),
              m.record false latency_ms)
          | .ok score =>
            if ¬(-5 ≤ score ∧ score ≤ 5) then
              ((some score, ⟨latency_ms, none,
                some (("Score ") ++ toString score ++ (" is outside expected range [-5, 5].")),
                endpoint⟩), m.record true latency_ms)
            else
              ((some score, ⟨latency_ms, none, none, endpoint⟩), m.record true latency_ms)
  | .timeoutExc =>
    ((none, ⟨latency_ms,
      some (("Timeout after 4.0s while calling the external service. ") ++
        ("This usually means the container is not running, the URL/port is wrong, or the model is too slow. ") ++
        ("Try: (1) open the service docs at /docs, (2) verify /v1/sentiment exists, (3) reduce model size.")),
      none, endpoint⟩), m.record false latency_ms)
  | .requestErrorExc ename etext =>
    ((none, ⟨latency_ms,
      some (("Could not reach the external service (network error). ") ++
        ("Check the base URL and whether the container is running. ") ++
        ("Details: ") ++ ename ++ (": ") ++ etext),
      none, endpoint⟩), m.record false latency_ms)
  | .otherExc ename etext =>
    ((none, ⟨latency_ms, some (unexpectedErrMsg ename etext), none, endpoint⟩),
      m.record false latency_ms)

/-- One row of the batch output (`rows_out` entries in `api_batch`).
Successful rows carry no `error` key; failed rows carry the error text. -/
structure BatchRow where
  text : String
  gold : String
  score : Option ℚ
  pred : Option SentimentLabel
  ok : Bool
  latency_ms : ℚ
  error : Option String
  deriving DecidableEq, Repr

/-- The JSON payload `api_batch` returns on success. -/
structure BatchSuccess where
  n : ℕ
  correct : ℕ
  accuracy : ℚ
  avg_latency_ms : ℚ
  rows : List BatchRow
  deriving DecidableEq, Repr

/-- Outcome of the batch endpoint: either a `JSONResponse` with an error
status and a `detail` message, or the success payload. -/
inductive BatchOutcome where
  | error (status : ℕ) (detail : String)
  | ok (summary : BatchSuccess)
  deriving DecidableEq, Repr

/-- The gold-label membership test `gold in ("positive", "neutral",
"negative")` from `api_batch`. -/
def gold_valid (gold : String) : Bool :=
  gold == "positive" || gold == "neutral" || gold == "negative"

/-- The dataset-shape check of `api_batch`, per item: after pydantic
validation an item is a list of strings; the handler additionally requires
exactly two entries and a recognized gold label.  `item_invalid` is true
exactly when the handler would return a 400 upon reaching the item. -/
def item_invalid (item : List String) : Bool :=
  item.length != 2 || !gold_valid (item.getD 1 (""))

/-- The `for item in req.dataset` loop of `api_batch`.  The transport
behaviour of the sequence of external calls is supplied by `oracle`: the
`k`-th call (0-based, counted by the `k` argument) observes
`(oracle k).1` with measured latency `(oracle k).2`.  State threaded
through the loop: the accumulated `rows_out`, `latencies`, `correct`, `n`,
the number `k` of external calls issued so far, and the metrics state.
Returns `((outcome, total_external_calls), final_metrics)`. -/
def api_batch_loop (service_url : String) (oracle : ℕ → HttpResult × ℚ)
    (items : List (List String)) (rows_out : List BatchRow)
    (latencies : List ℚ) (correct n k : ℕ) (m : Metrics) :
    (BatchOutcome × ℕ) × Metrics :=
  match items with
  | [] =>
    let accuracy : ℚ := if n ≠ 0 then (correct : ℚ) / (n : ℚ) else 0
    let avg_latency : ℚ :=
      if ¬latencies.isEmpty then latencies.sum / (latencies.length : ℚ) else 0
    ((.ok ⟨n, correct, accuracy, avg_latency, rows_out⟩, k), m)
  | item :: rest =>
    if item.length ≠ 2 then
      ((.error 400 ("Dataset must be a list of [text, gold_label] pairs."), k), m)
    else
      let text := item.getD 0 ("")
      let gold := item.getD 1 ("")
      if ¬gold_valid gold then
        ((.error 400 (("Gold label must be positive/neutral/negative. Got: ") ++ pyRepr gold), k), m)
      else
        let out := call_external_service service_url text (oracle k).1 (oracle k).2 m
        let scoreOpt := out.1.1
        let info := out.1.2
        let latency_ms := info.latency_ms
        match scoreOpt with
        | none =>
          api_batch_loop service_url oracle rest
            (rows_out ++ [⟨text, gold, none, none, false, latency_ms, info.error⟩])
            (latencies ++ [latency_ms]) correct (n + 1) (k + 1) out.2
        | some score =>
          let pred := score_to_label score
          let okRow := labelStr pred == gold
          api_batch_loop service_url oracle rest
            (rows_out ++ [⟨text, gold, some score, some pred, okRow, latency_ms, none⟩])
            (latencies ++ [latency_ms])
            (correct + (if okRow then 1 else 0)) (n + 1) (k + 1) out.2

/-- `api_batch` from `app.py`: run the loop from empty accumulators and
the given metrics state. -/
def api_batch (service_url : String) (oracle : ℕ → HttpResult × ℚ)
    (dataset : List (List String)) (m : Metrics) : (BatchOutcome × ℕ) × Metrics :=
  api_batch_loop service_url oracle dataset [] [] 0 0 0 m

/-- Folding a sequence of `(success, latency)` observations through
`Metrics.record`, starting from the process-start state. -/
def run_records (calls : List (Bool × ℚ)) : Metrics :=
  calls.foldl (fun m c => m.record c.1 c.2) Metrics.init

/-- A transport oracle whose every call returns HTTP 200 with JSON body
`\x7b"score": 2\x7d` after 5 ms; used to instantiate the universally
quantified theorems at concrete inputs. -/
def always_ok_oracle : ℕ → HttpResult × ℚ :=
  fun _ => (.response 200 ("") (.ok [(("score"), .num 2)]), 5)

/-- A transport oracle whose every call times out after 4000 ms. -/
def always_timeout_oracle : ℕ → HttpResult × ℚ :=
  fun _ => (.timeoutExc, 4000)

/-- `Metrics.record` bumps `total_requests` by exactly one. -/
theorem record_total (m : Metrics) (b : Bool) (l : ℚ) :
    (m.record b l).total_requests = m.total_requests + 1 := rfl

/-- `Metrics.record` bumps the sum of the success and failure counters by
exactly one. -/
theorem record_sf (m : Metrics) (b : Bool) (l : ℚ) :
    (m.record b l).success_requests + (m.record b l).failed_requests =
      m.success_requests + m.failed_requests + 1 := by
  cases b <;> simp [Metrics.record] <;> omega

/-- Folding observations through `Metrics.record` adds the number of
observations to `total_requests` and to the success/failure sum. -/
theorem run_records_aux (calls : List (Bool × ℚ)) : ∀ m : Metrics,
    (calls.foldl (fun m c => m.record c.1 c.2) m).total_requests =
      m.total_requests + calls.length ∧
    (calls.foldl (fun m c => m.record c.1 c.2) m).success_requests +
      (calls.foldl (fun m c => m.record c.1 c.2) m).failed_requests =
      m.success_requests + m.failed_requests + calls.length := by
  induction calls with
  | nil => intro m; simp
  | cons c cs ih =>
    intro m
    obtain ⟨h1, h2⟩ := ih (m.record c.1 c.2)
    refine ⟨?_, ?_⟩
    · rw [List.foldl_cons, h1, record_total, List.length_cons]; omega
    · rw [List.foldl_cons, h2, record_sf, List.length_cons]; omega

/-- C3: for every score `s`, `score_to_label s = negative` iff `s ≤ -1`,
`= positive` iff `s ≥ 1`, and `= neutral` iff `-1 < s < 1`; in particular
`score_to_label (-1) = negative`, `score_to_label 1 = positive`, and
`score_to_label 0 = neutral`.  (Totality and determinism are inherent:
`score_to_label` is a Lean function.) -/
theorem score_to_label_policy :
    (∀ s : ℚ, (score_to_label s = .negative ↔ s ≤ -1) ∧
      (score_to_label s = .positive ↔ 1 ≤ s) ∧
      (score_to_label s = .neutral ↔ (-1 < s ∧ s < 1))) ∧
    score_to_label (-1) = .negative ∧
    score_to_label 1 = .positive ∧
    score_to_label 0 = .neutral := by
  refine ⟨fun s => ?_, by decide, by decide, by decide⟩
  unfold score_to_label
  split
  · rename_i h1
    exact ⟨⟨fun _ => h1, fun _ => rfl⟩,
      ⟨fun h => absurd h (by decide), fun h => by exfalso; linarith⟩,
      ⟨fun h => absurd h (by decide), fun h => by exfalso; linarith [h.1]⟩⟩
  · rename_i h1
    push_neg at h1
    split
    · rename_i h2
      exact ⟨⟨fun h => absurd h (by decide), fun h => by exfalso; linarith⟩,
        ⟨fun _ => h2, fun _ => rfl⟩,
        ⟨fun h => absurd h (by decide), fun h => by exfalso; linarith [h.2]⟩⟩
    · rename_i h2
      push_neg at h2
      exact ⟨⟨fun h => absurd h (by decide), fun h => by exfalso; linarith⟩,
        ⟨fun h => absurd h (by decide), fun h => by exfalso; linarith⟩,
        ⟨fun _ => ⟨h1, h2⟩, fun _ => rfl⟩⟩

/-- C3 witness: the three-way characterization instantiated at concrete
scores. -/
theorem score_to_label_policy_witness :
    score_to_label 3 = .positive ∧ score_to_label (-2) = .negative :=
  ⟨((score_to_label_policy.1 3).2.1).mpr (by norm_num),
    ((score_to_label_policy.1 (-2)).1).mpr (by norm_num)⟩

/-- C5: starting from the all-zero state, after any sequence of `n`
`record` calls `total_requests = n` and `success_requests +
failed_requests = n`; moreover a single `record` preserves the invariant
`total = success + failed`.  (Non-negativity is inherent: the counters
are natural numbers.) -/
theorem metrics_record_counts :
    (∀ calls : List (Bool × ℚ),
      (run_records calls).total_requests = calls.length ∧
      (run_records calls).success_requests + (run_records calls).failed_requests =
        calls.length) ∧
    (∀ (m : Metrics) (ok : Bool) (lat : ℚ),
      m.total_requests = m.success_requests + m.failed_requests →
      (m.record ok lat).total_requests =
        (m.record ok lat).success_requests + (m.record ok lat).failed_requests) := by
  constructor
  · intro calls
    have h := run_records_aux calls Metrics.init
    simpa [run_records, Metrics.init] using h
  · intro m ok lat hm
    rw [record_total, record_sf, hm]

/-- C5 witness: three recorded calls (two successes, one failure) give
`total_requests = 3` and `success + failed = 3`, and the step invariant
holds at a concrete state. -/
theorem metrics_record_counts_witness :
    ((run_records [(true, 5), (false, 6), (true, 7)]).total_requests = 3 ∧
      (run_records [(true, 5), (false, 6), (true, 7)]).success_requests +
        (run_records [(true, 5), (false, 6), (true, 7)]).failed_requests = 3) ∧
    (Metrics.init.record true 5).total_requests =
      (Metrics.init.record true 5).success_requests +
        (Metrics.init.record true 5).failed_requests :=
  ⟨metrics_record_counts.1 [(true, 5), (false, 6), (true, 7)],
    metrics_record_counts.2 Metrics.init true 5 (by decide)⟩

/-- C4: `snapshot` returns `p95_latency_ms = none` with fewer than 20
recorded latencies; with at least 20 it returns the element at index
`⌊0.95 × (count − 1)⌋ = 19 × (count − 1) / 20` of the latency log sorted
ascending; for exactly the 20 latencies `1, 2, …, 20` it returns 19. -/
theorem p95_snapshot_spec :
    (∀ m : Metrics, m.latencies_ms.length < 20 →
      (m.snapshot).p95_latency_ms = none) ∧
    (∀ m : Metrics, 20 ≤ m.latencies_ms.length →
      (m.snapshot).p95_latency_ms =
        some ((m.latencies_ms.insertionSort (· ≤ ·)).getD
          ((19 * ((m.latencies_ms.insertionSort (· ≤ ·)).length - 1)) / 20) 0)) ∧
    (run_records ((List.range 20).map
      (fun i => (true, ((i + 1 : ℕ) : ℚ))))).snapshot.p95_latency_ms = some 19 := by
  refine ⟨?_, ?_, by decide⟩
  · intro m h
    simp only [Metrics.snapshot]
    rw [if_neg (Nat.not_le.mpr h)]
  · intro m h
    simp only [Metrics.snapshot]
    rw [if_pos h]

/-- C4 witness: the empty log gives `p95 = none`; twenty identical
latencies `7` give `p95 = 7`. -/
theorem p95_snapshot_spec_witness :
    (Metrics.init.snapshot).p95_latency_ms = none ∧
    ((run_records (List.replicate 20 (true, (7 : ℚ)))).snapshot).p95_latency_ms =
      some 7 := by
  constructor
  · exact p95_snapshot_spec.1 Metrics.init (by decide)
  · rw [p95_snapshot_spec.2.1 (run_records (List.replicate 20 (true, (7 : ℚ))))
      (by decide)]
    decide

/-- C2: every invocation of `call_external_service`, whatever the
transport outcome, leaves the metrics state equal to exactly one
`record` applied to the incoming state, with the measured latency, and
with success exactly when a score is returned (success and
success-with-warning); hence `total_requests` grows by exactly 1. -/
theorem call_records_exactly_once (u t : String) (res : HttpResult)
    (lat : ℚ) (m : Metrics) :
    (call_external_service u t res lat m).2 =
      m.record (call_external_service u t res lat m).1.1.isSome lat ∧
    (call_external_service u t res lat m).2.total_requests =
      m.total_requests + 1 := by
  have h : (call_external_service u t res lat m).2 =
      m.record (call_external_service u t res lat m).1.1.isSome lat := by
    cases res <;> simp only [call_external_service] <;> (repeat' split) <;> rfl
  exact ⟨h, by rw [h, record_total]⟩

/-- C2 witness: the invariant instantiated at a concrete timed-out call. -/
theorem call_records_exactly_once_witness :
    (call_external_service ("http://x") ("hi") .timeoutExc 4000 Metrics.init).2 =
      Metrics.init.record
        (call_external_service ("http://x") ("hi") .timeoutExc 4000 Metrics.init).1.1.isSome
        4000 ∧
    (call_external_service ("http://x") ("hi") .timeoutExc 4000 Metrics.init).2.total_requests =
      Metrics.init.total_requests + 1 :=
  call_records_exactly_once ("http://x") ("hi") .timeoutExc 4000 Metrics.init

/-- C6: a 200 response whose numeric score lies outside `[-5, 5]` is
returned as a success (score present, no error), the outcome carries the
range warning string, and the call is recorded as a metrics success. -/
theorem out_of_range_score_is_success (u t body : String)
    (data : List (String × JsonVal)) (v : JsonVal) (score lat : ℚ) (m : Metrics)
    (hv : data.lookup ("score") = some v) (hf : pyFloat v = .ok score)
    (hout : ¬(-5 ≤ score ∧ score ≤ 5)) :
    (call_external_service u t (.response 200 body (.ok data)) lat m).1.1 = some score ∧
    (call_external_service u t (.response 200 body (.ok data)) lat m).1.2.warning =
      some (("Score ") ++ toString score ++ (" is outside expected range [-5, 5].")) ∧
    (call_external_service u t (.response 200 body (.ok data)) lat m).1.2.error = none ∧
    (call_external_service u t (.response 200 body (.ok data)) lat m).2 =
      m.record true lat := by
  have hne : ¬((200 : ℕ) ≠ 200) := by simp
  simp only [call_external_service, if_neg hne, hv, hf, if_pos hout]
  refine ⟨?_, ?_, ?_, ?_⟩ <;> trivial

/-- C6 witness: score 7 on a 200 response is accepted with a warning and
recorded as a success. -/
theorem out_of_range_score_is_success_witness :
    (call_external_service ("http://x") ("hi")
      (.response 200 ("") (.ok [(("score"), .num 7)])) 5 Metrics.init).1.1 = some 7 ∧
    (call_external_service ("http://x") ("hi")
      (.response 200 ("") (.ok [(("score"), .num 7)])) 5 Metrics.init).1.2.warning =
      some (("Score ") ++ toString (7 : ℚ) ++ (" is outside expected range [-5, 5].")) ∧
    (call_external_service ("http://x") ("hi")
      (.response 200 ("") (.ok [(("score"), .num 7)])) 5 Metrics.init).1.2.error = none ∧
    (call_external_service ("http://x") ("hi")
      (.response 200 ("") (.ok [(("score"), .num 7)])) 5 Metrics.init).2 =
      Metrics.init.record true 5 :=
  out_of_range_score_is_success ("http://x") ("hi") ("") [(("score"), .num 7)]
    (.num 7) 7 5 Metrics.init (by rfl) (by rfl) (by decide)

set_option maxRecDepth 8192 in
/-- C7 counterexample: the code tests `status_code != 200`, not "non-2xx".
A 201 response with a perfectly valid in-range score is classified as a
failure (no score, an error mentioning HTTP 201, a metrics failure),
refuting the claim that every 2xx response with a valid score succeeds. -/
theorem non200_2xx_refutes_claim :
    (call_external_service ("http://x") ("hi")
      (.response 201 ("created") (.ok [(("score"), .num 2)])) 5 Metrics.init).1.1 =
      none ∧
    (call_external_service ("http://x") ("hi")
      (.response 201 ("created") (.ok [(("score"), .num 2)])) 5 Metrics.init).1.2.error =
      some (("External service responded with HTTP ") ++ toString (201 : ℕ) ++
        (". Expected 200. Response body (truncated): ") ++ pyRepr ("created")) ∧
    (call_external_service ("http://x") ("hi")
      (.response 201 ("created") (.ok [(("score"), .num 2)])) 5 Metrics.init).2.failed_requests =
      1 := by
  refine ⟨rfl, ?_, rfl⟩
  rfl

/-- C7 (amended): every response with status ≠ 200 — including 2xx
statuses other than 200 — is a failure whose error text includes the
status code and the response body truncated to its first 200 characters,
recorded as a metrics failure; every response with status exactly 200
whose JSON carries a numeric score within `[-5, 5]` is a success carrying
that score, recorded as a metrics success. -/
theorem non200_failure_200_success :
    (∀ (u t : String) (status : ℕ) (body : String)
      (jsonR : Except (String × String) (List (String × JsonVal)))
      (lat : ℚ) (m : Metrics), status ≠ 200 →
      (call_external_service u t (.response status body jsonR) lat m).1.1 = none ∧
      (call_external_service u t (.response status body jsonR) lat m).1.2.error =
        some (("External service responded with HTTP ") ++ toString status ++
          (". Expected 200. Response body (truncated): ") ++ pyRepr (body.take 200)) ∧
      (call_external_service u t (.response status body jsonR) lat m).2 =
        m.record false lat) ∧
    (∀ (u t body : String) (data : List (String × JsonVal)) (v : JsonVal)
      (score lat : ℚ) (m : Metrics),
      data.lookup ("score") = some v → pyFloat v = .ok score →
      -5 ≤ score → score ≤ 5 →
      (call_external_service u t (.response 200 body (.ok data)) lat m).1.1 =
        some score ∧
      (call_external_service u t (.response 200 body (.ok data)) lat m).1.2.error =
        none ∧
      (call_external_service u t (.response 200 body (.ok data)) lat m).2 =
        m.record true lat) := by
  constructor
  · intro u t status body jsonR lat m hs
    simp only [call_external_service, if_pos hs]
    refine ⟨?_, ?_, ?_⟩ <;> trivial
  · intro u t body data v score lat m hv hf h5 h5'
    have hne : ¬((200 : ℕ) ≠ 200) := by simp
    have hin : ¬¬(-5 ≤ score ∧ score ≤ 5) := fun hc => hc ⟨h5, h5'⟩
    simp only [call_external_service, if_neg hne, hv, hf, if_neg hin]
    refine ⟨?_, ?_, ?_⟩ <;> trivial

/-- C7 witness: a 404 with body text is a failure whose error names HTTP
404 and the body; a 200 with score 2 succeeds with score 2. -/
theorem non200_failure_200_success_witness :
    ((call_external_service ("http://x") ("hi")
      (.response 404 ("nope") (.ok [])) 5 Metrics.init).1.1 = none ∧
     (call_external_service ("http://x") ("hi")
      (.response 404 ("nope") (.ok [])) 5 Metrics.init).1.2.error =
        some (("External service responded with HTTP ") ++ toString (404 : ℕ) ++
          (". Expected 200. Response body (truncated): ") ++ pyRepr (("nope" : String).take 200)) ∧
     (call_external_service ("http://x") ("hi")
      (.response 404 ("nope") (.ok [])) 5 Metrics.init).2 =
        Metrics.init.record false 5) ∧
    (call_external_service ("http://x") ("hi")
      (.response 200 ("") (.ok [(("score"), .num 2)])) 5 Metrics.init).1.1 = some 2 :=
  ⟨non200_failure_200_success.1 ("http://x") ("hi") 404 ("nope") (.ok []) 5
      Metrics.init (by decide),
    (non200_failure_200_success.2 ("http://x") ("hi") ("") [(("score"), .num 2)]
      (.num 2) 2 5 Metrics.init (by rfl) (by rfl) (by norm_num) (by norm_num)).1⟩

/-- Sanity check of the `float(str)` model: an exponent literal
converts (`float("1e3") = 1000.0`). -/
theorem pyStrToFloat_exponent : pyStrToFloat ("1e3") = some (.finite 1000) := by
  have h1 : pyStrToFloat ("1e3") =
      some (.finite (finiteVal 1 ('1' :: []) [] 3)) := by rfl
  rw [h1, finiteVal]
  rw [show digitsToNat ('1' :: []) = 1 from rfl,
    show digitsToNat ([] : List Char) = 0 from rfl]
  norm_num

/-- Sanity check: surrounding whitespace is stripped
(`float(" 1 ") = 1.0`). -/
theorem pyStrToFloat_whitespace : pyStrToFloat (" 1 ") = some (.finite 1) := by
  have h1 : pyStrToFloat (" 1 ") =
      some (.finite (finiteVal 1 ('1' :: []) [] 0)) := by rfl
  rw [h1, finiteVal]
  rw [show digitsToNat ('1' :: []) = 1 from rfl,
    show digitsToNat ([] : List Char) = 0 from rfl]
  norm_num

/-- Sanity check: PEP 515 underscores convert (`float("1_0") = 10.0`). -/
theorem pyStrToFloat_underscore : pyStrToFloat ("1_0") = some (.finite 10) := by
  have h1 : pyStrToFloat ("1_0") =
      some (.finite (finiteVal 1 ('1' :: '0' :: []) [] 0)) := by rfl
  rw [h1, finiteVal]
  rw [show digitsToNat ('1' :: '0' :: []) = 10 from rfl,
    show digitsToNat ([] : List Char) = 0 from rfl]
  norm_num

/-- Sanity check: sign, fraction and exponent combine exactly
(`float("-2.5e1") = -25.0`). -/
theorem pyStrToFloat_fraction : pyStrToFloat ("-2.5e1") = some (.finite (-25)) := by
  have h1 : pyStrToFloat ("-2.5e1") =
      some (.finite (finiteVal (-1) ('2' :: []) ('5' :: []) 1)) := by rfl
  rw [h1, finiteVal]
  rw [show digitsToNat ('2' :: []) = 2 from rfl,
    show digitsToNat ('5' :: []) = 5 from rfl]
  norm_num

/-- Sanity check: the special literals are recognized as convertible
(to non-finite floats), case-insensitively and with signs, so they lie
outside the raising region. -/
theorem pyStrToFloat_specials :
    pyStrToFloat ("inf") = some .nonfinite ∧
    pyStrToFloat ("-Infinity") = some .nonfinite ∧
    pyStrToFloat ("nan") = some .nonfinite := by decide

/-- Sanity check: strings Python `float()` raises on are rejected
(non-numeric text, doubled/trailing underscores, bare exponent or
dot). -/
theorem pyStrToFloat_rejects :
    pyStrToFloat ("abc") = none ∧ pyStrToFloat ("1__0") = none ∧
    pyStrToFloat ("1e") = none ∧ pyStrToFloat (".") = none ∧
    pyStrToFloat ("1_") = none := by decide

/-- C10: a 200 response whose `score` value is an (ASCII) string the
Python `float` conversion raises on — one rejected by the full float
grammar (whitespace-stripped, optional sign, special literals, digits
with PEP 515 underscores, optional fraction and exponent) — takes the
generic-exception branch: no score, the error message names the
exception type (`ValueError`) and text — not the key list — and the
call is recorded as a metrics failure. -/
theorem unparseable_score_generic_failure (u t body s : String)
    (data : List (String × JsonVal)) (lat : ℚ) (m : Metrics)
    (hv : data.lookup ("score") = some (.str s))
    (hascii : s.data.all (fun c => decide (c.toNat < 128)) = true)
    (hbad : pyStrToFloat s = none) :
    (call_external_service u t (.response 200 body (.ok data)) lat m).1.1 = none ∧
    (call_external_service u t (.response 200 body (.ok data)) lat m).1.2.error =
      some (unexpectedErrMsg ("ValueError")
        (("could not convert string to float: ") ++ pyRepr s)) ∧
    (call_external_service u t (.response 200 body (.ok data)) lat m).2 =
      m.record false lat := by
  have hne : ¬((200 : ℕ) ≠ 200) := by simp
  have hf : pyFloat (.str s) =
      .error (("ValueError"), ("could not convert string to float: ") ++ pyRepr s) := by
    simp only [pyFloat, hbad]
  simp only [call_external_service, if_neg hne, hv, hf]
  refine ⟨?_, ?_, ?_⟩ <;> trivial

/-- C10 witness: `"abc"` as the score value fails via the generic branch
with a `ValueError` message and a metrics failure. -/
theorem unparseable_score_generic_failure_witness :
    (call_external_service ("http://x") ("hi")
      (.response 200 ("") (.ok [(("score"), .str ("abc"))])) 5 Metrics.init).1.1 =
      none ∧
    (call_external_service ("http://x") ("hi")
      (.response 200 ("") (.ok [(("score"), .str ("abc"))])) 5 Metrics.init).1.2.error =
      some (unexpectedErrMsg ("ValueError")
        (("could not convert string to float: ") ++ pyRepr ("abc"))) ∧
    (call_external_service ("http://x") ("hi")
      (.response 200 ("") (.ok [(("score"), .str ("abc"))])) 5 Metrics.init).2 =
      Metrics.init.record false 5 :=
  unparseable_score_generic_failure ("http://x") ("hi") ("") ("abc")
    [(("score"), .str ("abc"))] 5 Metrics.init (by rfl) (by decide) (by decide)

/-- Mutual exclusion, one direction: whenever `call_external_service`
returns no score, the debug info carries an error string. -/
theorem call_failure_has_error (u t : String) (res : HttpResult) (lat : ℚ)
    (m : Metrics) (h : (call_external_service u t res lat m).1.1 = none) :
    ∃ e, (call_external_service u t res lat m).1.2.error = some e := by
  cases res <;> simp only [call_external_service] at h ⊢ <;>
    (repeat' split at h) <;> simp_all

/-- C8: in a batch run, an item whose external call fails produces a row
with `score = none`, `pred = none`, `ok = false` and a non-null error
text; the item still bumps the item count, its latency is still appended
to the latency list, and the loop continues with the remaining items. -/
theorem batch_failed_item_row (u : String) (oracle : ℕ → HttpResult × ℚ)
    (item : List String) (rest : List (List String)) (rows_out : List BatchRow)
    (latencies : List ℚ) (correct n k : ℕ) (m : Metrics)
    (hlen : item.length = 2) (hgold : gold_valid (item.getD 1 ("")) = true)
    (hfail : (call_external_service u (item.getD 0 ("")) (oracle k).1
      (oracle k).2 m).1.1 = none) :
    ∃ err : String,
      (call_external_service u (item.getD 0 ("")) (oracle k).1
        (oracle k).2 m).1.2.error = some err ∧
      api_batch_loop u oracle (item :: rest) rows_out latencies correct n k m =
        api_batch_loop u oracle rest
          (rows_out ++ [⟨item.getD 0 (""), item.getD 1 (""), none, none, false,
            (call_external_service u (item.getD 0 ("")) (oracle k).1
              (oracle k).2 m).1.2.latency_ms, some err⟩])
          (latencies ++ [(call_external_service u (item.getD 0 ("")) (oracle k).1
            (oracle k).2 m).1.2.latency_ms])
          correct (n + 1) (k + 1)
          (call_external_service u (item.getD 0 ("")) (oracle k).1
            (oracle k).2 m).2 := by
  obtain ⟨e, he⟩ := call_failure_has_error u (item.getD 0 ("")) (oracle k).1
    (oracle k).2 m hfail
  refine ⟨e, he, ?_⟩
  have h2 : ¬(item.length ≠ 2) := fun hc => hc hlen
  have hg : ¬¬(gold_valid (item.getD 1 ("")) = true) := fun hc => hc hgold
  conv_lhs => rw [api_batch_loop]
  rw [if_neg h2, if_neg hg]
  simp only [hfail, he]

/-- C8 witness: a valid item whose call times out yields the failed row
and the loop recurses; instantiated with the always-timing-out oracle. -/
theorem batch_failed_item_row_witness :
    ∃ err : String,
      (call_external_service ("http://x") ("hello") (always_timeout_oracle 0).1
        (always_timeout_oracle 0).2 Metrics.init).1.2.error = some err ∧
      api_batch_loop ("http://x") always_timeout_oracle
        [[("hello"), ("positive")]] [] [] 0 0 0 Metrics.init =
        api_batch_loop ("http://x") always_timeout_oracle []
          [⟨[("hello"), ("positive")].getD 0 (""), [("hello"), ("positive")].getD 1 (""),
            none, none, false,
            (call_external_service ("http://x") ("hello") (always_timeout_oracle 0).1
              (always_timeout_oracle 0).2 Metrics.init).1.2.latency_ms, some err⟩]
          [(call_external_service ("http://x") ("hello") (always_timeout_oracle 0).1
            (always_timeout_oracle 0).2 Metrics.init).1.2.latency_ms]
          0 (0 + 1) (0 + 1)
          (call_external_service ("http://x") ("hello") (always_timeout_oracle 0).1
            (always_timeout_oracle 0).2 Metrics.init).2 := by
  have h := batch_failed_item_row ("http://x") always_timeout_oracle
    [("hello"), ("positive")] [] [] [] 0 0 0 Metrics.init (by rfl) (by rfl) (by rfl)
  simpa using h

/-- Unfolding the batch loop over a valid item whose external call fails:
the loop appends the failure row and continues on the rest. -/
theorem api_batch_loop_step_fail (u : String) (oracle : ℕ → HttpResult × ℚ)
    (item : List String) (rest : List (List String)) (rows_out : List BatchRow)
    (latencies : List ℚ) (correct n k : ℕ) (m : Metrics)
    (hlen : item.length = 2) (hgold : gold_valid (item.getD 1 ("")) = true)
    (hfail : (call_external_service u (item.getD 0 ("")) (oracle k).1
      (oracle k).2 m).1.1 = none) :
    api_batch_loop u oracle (item :: rest) rows_out latencies correct n k m =
      api_batch_loop u oracle rest
        (rows_out ++ [⟨item.getD 0 (""), item.getD 1 (""), none, none, false,
          (call_external_service u (item.getD 0 ("")) (oracle k).1
            (oracle k).2 m).1.2.latency_ms,
          (call_external_service u (item.getD 0 ("")) (oracle k).1
            (oracle k).2 m).1.2.error⟩])
        (latencies ++ [(call_external_service u (item.getD 0 ("")) (oracle k).1
          (oracle k).2 m).1.2.latency_ms])
        correct (n + 1) (k + 1)
        (call_external_service u (item.getD 0 ("")) (oracle k).1
          (oracle k).2 m).2 := by
  have h2 : ¬(item.length ≠ 2) := fun hc => hc hlen
  have hg : ¬¬(gold_valid (item.getD 1 ("")) = true) := fun hc => hc hgold
  conv_lhs => rw [api_batch_loop]
  rw [if_neg h2, if_neg hg]
  simp only [hfail]

/-- Unfolding the batch loop over a valid item whose external call
succeeds with `score`: the loop appends the classified row and continues
on the rest. -/
theorem api_batch_loop_step_success (u : String) (oracle : ℕ → HttpResult × ℚ)
    (item : List String) (rest : List (List String)) (rows_out : List BatchRow)
    (latencies : List ℚ) (correct n k : ℕ) (m : Metrics) (score : ℚ)
    (hlen : item.length = 2) (hgold : gold_valid (item.getD 1 ("")) = true)
    (hsucc : (call_external_service u (item.getD 0 ("")) (oracle k).1
      (oracle k).2 m).1.1 = some score) :
    api_batch_loop u oracle (item :: rest) rows_out latencies correct n k m =
      api_batch_loop u oracle rest
        (rows_out ++ [⟨item.getD 0 (""), item.getD 1 (""), some score,
          some (score_to_label score),
          labelStr (score_to_label score) == item.getD 1 (""),
          (call_external_service u (item.getD 0 ("")) (oracle k).1
            (oracle k).2 m).1.2.latency_ms, none⟩])
        (latencies ++ [(call_external_service u (item.getD 0 ("")) (oracle k).1
          (oracle k).2 m).1.2.latency_ms])
        (correct + (if labelStr (score_to_label score) == item.getD 1 ("")
          then 1 else 0))
        (n + 1) (k + 1)
        (call_external_service u (item.getD 0 ("")) (oracle k).1
          (oracle k).2 m).2 := by
  have h2 : ¬(item.length ≠ 2) := fun hc => hc hlen
  have hg : ¬¬(gold_valid (item.getD 1 ("")) = true) := fun hc => hc hgold
  conv_lhs => rw [api_batch_loop]
  rw [if_neg h2, if_neg hg]
  simp only [hsucc]

/-- Reaching any invalid item makes the loop return a 400 whose external
call count is the number of calls already issued plus one per valid item
preceding the first invalid one. -/
theorem api_batch_first_invalid (u : String) (oracle : ℕ → HttpResult × ℚ) :
    ∀ (items : List (List String)) (rows_out : List BatchRow)
      (latencies : List ℚ) (correct n k : ℕ) (m : Metrics),
      items.any item_invalid = true →
      ∃ detail,
        (api_batch_loop u oracle items rows_out latencies correct n k m).1 =
          (.error 400 detail,
            k + (items.takeWhile (fun it => !item_invalid it)).length) := by
  intro items
  induction items with
  | nil => intro _ _ _ _ _ _ ha; simp at ha
  | cons item rest ih =>
    intro rows lats correct n k m ha
    by_cases hinv : item_invalid item = true
    · have ht : ((item :: rest).takeWhile (fun it => !item_invalid it)).length = 0 := by
        simp [List.takeWhile_cons, hinv]
      rw [ht]
      by_cases hlen : item.length = 2
      · have hg : ¬(gold_valid (item.getD 1 ("")) = true) := by
          intro hgt
          rw [item_invalid, hlen, hgt] at hinv
          simp at hinv
        refine ⟨("Gold label must be positive/neutral/negative. Got: ") ++
          pyRepr (item.getD 1 ("")), ?_⟩
        conv_lhs => rw [api_batch_loop]
        rw [if_neg (fun hc => hc hlen), if_pos hg]
        simp
      · refine ⟨("Dataset must be a list of [text, gold_label] pairs."), ?_⟩
        conv_lhs => rw [api_batch_loop]
        rw [if_pos hlen]
        simp
    · simp only [Bool.not_eq_true] at hinv
      obtain ⟨hlen2, hg⟩ : item.length = 2 ∧ gold_valid (item.getD 1 ("")) = true := by
        simpa [item_invalid] using hinv
      have ha' : rest.any item_invalid = true := by
        simpa [List.any_cons, hinv] using ha
      have ht : ((item :: rest).takeWhile (fun it => !item_invalid it)).length =
          ((rest.takeWhile (fun it => !item_invalid it)).length) + 1 := by
        simp [List.takeWhile_cons, hinv]
      rw [ht]
      cases hsc : (call_external_service u (item.getD 0 ("")) (oracle k).1
        (oracle k).2 m).1.1 with
      | none =>
        rw [api_batch_loop_step_fail u oracle item rest rows lats correct n k m
          hlen2 hg hsc]
        obtain ⟨d, hd⟩ := ih
          (rows ++ [⟨item.getD 0 (""), item.getD 1 (""), none, none, false,
            (call_external_service u (item.getD 0 ("")) (oracle k).1
              (oracle k).2 m).1.2.latency_ms,
            (call_external_service u (item.getD 0 ("")) (oracle k).1
              (oracle k).2 m).1.2.error⟩])
          (lats ++ [(call_external_service u (item.getD 0 ("")) (oracle k).1
            (oracle k).2 m).1.2.latency_ms])
          correct (n + 1) (k + 1)
          ((call_external_service u (item.getD 0 ("")) (oracle k).1
            (oracle k).2 m).2) ha'
        refine ⟨d, hd.trans ?_⟩
        simp only [Prod.mk.injEq]
        exact ⟨by trivial, by omega⟩
      | some score =>
        rw [api_batch_loop_step_success u oracle item rest rows lats correct n k m
          score hlen2 hg hsc]
        obtain ⟨d, hd⟩ := ih
          (rows ++ [⟨item.getD 0 (""), item.getD 1 (""), some score,
            some (score_to_label score),
            labelStr (score_to_label score) == item.getD 1 (""),
            (call_external_service u (item.getD 0 ("")) (oracle k).1
              (oracle k).2 m).1.2.latency_ms, none⟩])
          (lats ++ [(call_external_service u (item.getD 0 ("")) (oracle k).1
            (oracle k).2 m).1.2.latency_ms])
          (correct + (if labelStr (score_to_label score) == item.getD 1 ("")
            then 1 else 0))
          (n + 1) (k + 1)
          ((call_external_service u (item.getD 0 ("")) (oracle k).1
            (oracle k).2 m).2) ha'
        refine ⟨d, hd.trans ?_⟩
        simp only [Prod.mk.injEq]
        exact ⟨by trivial, by omega⟩

set_option maxRecDepth 8192 in
/-- C1 counterexample: validation happens per-item inside the loop, not
up front.  For the dataset `[["Great", "positive"], ["Bad", "mixed"]]`
(second gold label invalid), the batch does fail with a 400 validation
error — but only after one external call has already been issued for the
first, valid item, refuting "zero external calls are made". -/
theorem batch_interleaved_validation_cex :
    (api_batch ("http://x") always_ok_oracle
      [[("Great"), ("positive")], [("Bad"), ("mixed")]] Metrics.init).1 =
      (.error 400 (("Gold label must be positive/neutral/negative. Got: ") ++
        pyRepr ("mixed")), 1) ∧ (1 : ℕ) ≠ 0 :=
  ⟨by rfl, by decide⟩

/-- C1 (amended): if any dataset item is malformed (not exactly two
entries) or carries an unrecognized gold label, the batch fails with a
400 validation error at the first such item in input order, and external
calls have been made exactly for the valid items preceding it (in
particular zero when the first offending item is first). -/
theorem batch_validation_first_invalid (u : String)
    (oracle : ℕ → HttpResult × ℚ) (dataset : List (List String)) (m : Metrics)
    (h : dataset.any item_invalid = true) :
    ∃ detail, (api_batch u oracle dataset m).1 =
      (.error 400 detail,
        (dataset.takeWhile (fun it => !item_invalid it)).length) := by
  have hmain := api_batch_first_invalid u oracle dataset [] [] 0 0 0 m h
  simpa [api_batch] using hmain

set_option maxRecDepth 8192 in
/-- C1 witness: a dataset whose first item already has an invalid gold
label fails validation with zero external calls. -/
theorem batch_validation_first_invalid_witness :
    ∃ detail, (api_batch ("http://x") always_ok_oracle
      [[("Bad"), ("mixed")]] Metrics.init).1 = (.error 400 detail, 0) := by
  have ht : (([[("Bad"), ("mixed")]] : List (List String)).takeWhile
      (fun it => !item_invalid it)).length = 0 := by rfl
  rw [← ht]
  exact batch_validation_first_invalid ("http://x") always_ok_oracle
    [[("Bad"), ("mixed")]] Metrics.init (by rfl)

/-- Loop invariant for successful batch completions: if the accumulators
agree with the accumulated rows, the final summary's `n`, `correct`,
`accuracy` and `avg_latency_ms` satisfy the aggregate formulas over its
rows. -/
theorem api_batch_loop_ok_inv (u : String) (oracle : ℕ → HttpResult × ℚ) :
    ∀ (items : List (List String)) (rows_out : List BatchRow)
      (latencies : List ℚ) (correct n k : ℕ) (m : Metrics)
      (s : BatchSuccess) (kf : ℕ) (mf : Metrics),
      latencies = rows_out.map (fun r => r.latency_ms) →
      n = rows_out.length →
      correct = (rows_out.filter (fun r => r.ok)).length →
      api_batch_loop u oracle items rows_out latencies correct n k m =
        ((.ok s, kf), mf) →
      s.n = s.rows.length ∧
      s.correct = (s.rows.filter (fun r => r.ok)).length ∧
      (s.n ≠ 0 → s.accuracy = (s.correct : ℚ) / (s.n : ℚ)) ∧
      (s.rows ≠ [] → s.avg_latency_ms =
        (s.rows.map (fun r => r.latency_ms)).sum / ((s.rows.length : ℚ))) := by
  intro items
  induction items with
  | nil =>
    intro rows lats correct n k m s kf mf hl hn hc heq
    rw [api_batch_loop] at heq
    simp only [Prod.mk.injEq, BatchOutcome.ok.injEq] at heq
    obtain ⟨⟨hs, hk⟩, hm⟩ := heq
    subst hs
    refine ⟨hn, hc, ?_, ?_⟩
    · intro h0
      dsimp only at h0 ⊢
      rw [if_pos h0]
    · intro hr
      dsimp only at hr ⊢
      subst hl
      have hne : ¬((rows.map (fun r => r.latency_ms)).isEmpty = true) := by
        simpa using hr
      rw [if_pos hne, List.length_map]
  | cons item rest ih =>
    intro rows lats correct n k m s kf mf hl hn hc heq
    by_cases hlen : item.length = 2
    · by_cases hg : gold_valid (item.getD 1 ("")) = true
      · cases hsc : (call_external_service u (item.getD 0 ("")) (oracle k).1
          (oracle k).2 m).1.1 with
        | none =>
          rw [api_batch_loop_step_fail u oracle item rest rows lats correct n k m
            hlen hg hsc] at heq
          refine ih _ _ _ _ _ _ _ _ _ ?_ ?_ ?_ heq
          · simp [hl]
          · simp [hn]
          · simp [List.filter_append, hc]
        | some score =>
          rw [api_batch_loop_step_success u oracle item rest rows lats correct n k m
            score hlen hg hsc] at heq
          refine ih _ _ _ _ _ _ _ _ _ ?_ ?_ ?_ heq
          · simp [hl]
          · simp [hn]
          · cases hok : (labelStr (score_to_label score) == item.getD 1 ("")) <;>
              simp [List.filter_append, hc, hok]
      · rw [api_batch_loop] at heq
        rw [if_neg (fun hc' => hc' hlen), if_pos hg] at heq
        simp at heq
    · rw [api_batch_loop] at heq
      rw [if_pos hlen] at heq
      simp at heq

/-- C9: a batch over the empty dataset returns `n = 0`, `correct = 0`,
`accuracy = 0`, `avg_latency_ms = 0`, an empty row list, issues zero
external calls and leaves the metrics untouched; and in general, on any
successful batch, `n` is the row count, `correct` counts the correct
rows, `accuracy = correct / n` when `n ≠ 0`, and `avg_latency_ms` is the
arithmetic mean of the per-row latencies when rows exist. -/
theorem batch_empty_and_aggregates :
    (∀ (u : String) (oracle : ℕ → HttpResult × ℚ) (m : Metrics),
      api_batch u oracle [] m = ((.ok ⟨0, 0, 0, 0, []⟩, 0), m)) ∧
    (∀ (u : String) (oracle : ℕ → HttpResult × ℚ)
      (dataset : List (List String)) (m : Metrics)
      (s : BatchSuccess) (kf : ℕ) (mf : Metrics),
      api_batch u oracle dataset m = ((.ok s, kf), mf) →
      s.n = s.rows.length ∧
      s.correct = (s.rows.filter (fun r => r.ok)).length ∧
      (s.n ≠ 0 → s.accuracy = (s.correct : ℚ) / (s.n : ℚ)) ∧
      (s.rows ≠ [] → s.avg_latency_ms =
        (s.rows.map (fun r => r.latency_ms)).sum / ((s.rows.length : ℚ)))) := by
  constructor
  · intro u oracle m
    rfl
  · intro u oracle dataset m s kf mf heq
    exact api_batch_loop_ok_inv u oracle dataset [] [] 0 0 0 m s kf mf
      rfl rfl rfl heq

set_option maxRecDepth 8192 in
/-- C9 witness: the empty-dataset case instantiated at concrete inputs,
and the aggregate relations instantiated on that concrete successful
(empty) run. -/
theorem batch_empty_and_aggregates_witness :
    api_batch ("u") always_ok_oracle [] Metrics.init =
      ((.ok ⟨0, 0, 0, 0, []⟩, 0), Metrics.init) ∧
    ((⟨0, 0, 0, 0, []⟩ : BatchSuccess).n =
      (⟨0, 0, 0, 0, []⟩ : BatchSuccess).rows.length) :=
  ⟨batch_empty_and_aggregates.1 ("u") always_ok_oracle Metrics.init,
    (batch_empty_and_aggregates.2 ("u") always_ok_oracle [] Metrics.init
      ⟨0, 0, 0, 0, []⟩ 0 Metrics.init (by rfl)).1⟩
